import Mathlib

/-!
Shallow embedding of `buat_user.py` (Streamlit user-administration page)
and verification of its specification claims.

Modelling conventions:
* Python strings are Lean `String`s; `len(s)` is `String.length`,
  `s.strip()` is `strip` below, `s[:72]` is the first 72 code points.
* The external password-hashing primitive (`pwd_context.hash`) is an
  arbitrary function parameter `hashFn : String → String`.
* The `pwh.users` table is a `List UserRow`; the `pwh.hmhi_cabang`
  directory is a `List (Option String)` (its `cabang` column, NULLs
  as `none`).
* Streamlit `st.session_state` flags become explicit state records;
  button clicks become events; `st.stop()` becomes a `halted` outcome.
-/

namespace UserManagement

/-- Embedding of the Python slice `password[:72]` used on lines 111 and
159 of `buat_user.py`: the first 72 characters (code points) of the
string. -/
def truncate72 (p : String) : String :=
  String.mk (p.data.take 72)

/-- Embedding of Python `str.strip()`: drop whitespace characters from
both ends of the string. -/
def strip (s : String) : String :=
  String.mk (((s.data.dropWhile Char.isWhitespace).reverse.dropWhile
    Char.isWhitespace).reverse)

/-- One row of the `pwh.users` table: `(username, hashed_password, cabang)`.
`created_at` is set by the store and never read by the claims, so it is
omitted. -/
structure UserRow where
  username : String
  hashed_password : String
  cabang : String
deriving DecidableEq

/-- Outcome of one submission of the create-user form, one constructor
per distinct `st.error` / `st.success` branch of lines 150-174. -/
inductive CreateOutcome where
  | success
  | emptyField
  | mismatch
  | tooShort
  | conflict
  | dbError
deriving DecidableEq

/-- Embedding of the create-user form submission (lines 150-174 of
`buat_user.py`): the validation chain
`if not username or not password or not cabang / elif password != password_confirm / elif len(password) < 8`,
then `INSERT` of `(username.strip(), hash(password[:72]), cabang)`; a
unique-constraint violation on `username` raises `IntegrityError`
containing "unique", reported as the distinct conflict outcome. -/
def create_user (hashFn : String → String) (store : List UserRow)
    (username password password_confirm cabang : String) :
    CreateOutcome × List UserRow :=
  if username = "" ∨ password = "" ∨ cabang = "" then
    (CreateOutcome.emptyField, store)
  else if password ≠ password_confirm then
    (CreateOutcome.mismatch, store)
  else if password.length < 8 then
    (CreateOutcome.tooShort, store)
  else if store.any (fun r => r.username == strip username) then
    (CreateOutcome.conflict, store)
  else
    (CreateOutcome.success,
      store ++ [⟨strip username, hashFn (truncate72 password), cabang⟩])

/-- A create submission either succeeds and appends exactly the row
`(strip username, hashFn (truncate72 password), cabang)`, or fails and
leaves the store unchanged. -/
theorem create_user_cases (hf : String → String) (store : List UserRow)
    (u p pc c : String) :
    ((create_user hf store u p pc c).1 = CreateOutcome.success ∧
      (create_user hf store u p pc c).2
        = store ++ [⟨strip u, hf (truncate72 p), c⟩]) ∨
    ((create_user hf store u p pc c).1 ≠ CreateOutcome.success ∧
      (create_user hf store u p pc c).2 = store) := by
  unfold create_user
  split
  · exact Or.inr ⟨by simp, rfl⟩
  · split
    · exact Or.inr ⟨by simp, rfl⟩
    · split
      · exact Or.inr ⟨by simp, rfl⟩
      · split
        · exact Or.inr ⟨by simp, rfl⟩
        · exact Or.inl ⟨rfl, rfl⟩

/-- Claim C2 (amended): the create-form validation is fail-fast in the
order: the three fields `username`, `password`, `cabang` non-empty
(`password_confirm` is not checked for emptiness), then
`password == password_confirm`, then `len(password) >= 8`; an empty
`password_confirm` with the other three fields filled is rejected at the
mismatch step, not as an empty-field failure; whenever any validation
fails, no row is inserted. -/
theorem create_validation_order (hf : String → String) (store : List UserRow)
    (u p pc c : String) :
    ((u = "" ∨ p = "" ∨ c = "") →
      create_user hf store u p pc c = (CreateOutcome.emptyField, store)) ∧
    (u ≠ "" → p ≠ "" → c ≠ "" → p ≠ pc →
      create_user hf store u p pc c = (CreateOutcome.mismatch, store)) ∧
    (u ≠ "" → p ≠ "" → c ≠ "" → p = pc → p.length < 8 →
      create_user hf store u p pc c = (CreateOutcome.tooShort, store)) ∧
    (u ≠ "" → p ≠ "" → c ≠ "" → pc = "" →
      create_user hf store u p pc c = (CreateOutcome.mismatch, store)) ∧
    ((create_user hf store u p pc c).1 ≠ CreateOutcome.success →
      (create_user hf store u p pc c).2 = store) := by
  refine ⟨?_, ?_, ?_, ?_, ?_⟩
  · intro h
    simp only [create_user, if_pos h]
  · intro hu hp hc hne
    have hempty : ¬ (u = "" ∨ p = "" ∨ c = "") := by
      rintro (h | h | h) <;> [exact hu h; exact hp h; exact hc h]
    simp only [create_user, if_neg hempty, if_pos hne]
  · intro hu hp hc heq hlt
    have hempty : ¬ (u = "" ∨ p = "" ∨ c = "") := by
      rintro (h | h | h) <;> [exact hu h; exact hp h; exact hc h]
    have hne : ¬ (p ≠ pc) := fun h => h heq
    simp only [create_user, if_neg hempty, if_neg hne, if_pos hlt]
  · intro hu hp hc hpc
    have hempty : ¬ (u = "" ∨ p = "" ∨ c = "") := by
      rintro (h | h | h) <;> [exact hu h; exact hp h; exact hc h]
    have hne : p ≠ pc := fun h => hp (h.trans hpc)
    simp only [create_user, if_neg hempty, if_pos hne]
  · intro hfail
    rcases create_user_cases hf store u p pc c with ⟨hs, _⟩ | ⟨_, hst⟩
    · exact absurd hs hfail
    · exact hst

/-- Witness for C2: with `password_confirm` empty and the other fields
filled, submission is rejected at the mismatch step. -/
theorem create_validation_order_witness :
    create_user id [] "alice" "password1" "" "ALL" = (CreateOutcome.mismatch, []) :=
  (create_validation_order id [] "alice" "password1" "" "ALL").2.2.2.1
    (by decide) (by decide) (by decide) (by decide)

/-- Counterexample for C2 as stated: an empty `password_confirm` with the
other three fields filled is rejected as a password mismatch, not as an
empty-field failure. -/
theorem create_empty_confirm_counterexample :
    (create_user id [] "alice" "password1" "" "ALL").1 = CreateOutcome.mismatch ∧
    (create_user id [] "alice" "password1" "" "ALL").1 ≠ CreateOutcome.emptyField := by
  decide

/-- Claim C3: creating a user whose (stripped) username is already present
in the store fails with the distinct conflict outcome — not the generic
database-error outcome — and leaves the row count unchanged. -/
theorem create_duplicate_conflict (hf : String → String) (store : List UserRow)
    (u p c : String)
    (hu : u ≠ "") (hp : p ≠ "") (hc : c ≠ "") (hlen : ¬ p.length < 8)
    (hdup : store.any (fun r => r.username == strip u) = true) :
    (create_user hf store u p p c).1 = CreateOutcome.conflict ∧
    (create_user hf store u p p c).1 ≠ CreateOutcome.dbError ∧
    (create_user hf store u p p c).2 = store ∧
    (create_user hf store u p p c).2.length = store.length := by
  have hempty : ¬ (u = "" ∨ p = "" ∨ c = "") := by
    rintro (h | h | h) <;> [exact hu h; exact hp h; exact hc h]
  have hne : ¬ (p ≠ p) := fun h => h rfl
  have key : create_user hf store u p p c = (CreateOutcome.conflict, store) := by
    simp only [create_user, if_neg hempty, if_neg hne, if_neg hlen, if_pos hdup]
  rw [key]
  refine ⟨rfl, ?_, rfl, rfl⟩
  intro h
  exact CreateOutcome.noConfusion h

/-- Witness for C3: inserting "bob" when a row for "bob" exists yields
the conflict outcome and an unchanged store. -/
theorem create_duplicate_conflict_witness :
    (create_user id [⟨"bob", "h", "ALL"⟩] "bob" "password1" "password1" "ALL").1
      = CreateOutcome.conflict ∧
    (create_user id [⟨"bob", "h", "ALL"⟩] "bob" "password1" "password1" "ALL").2.length = 1 := by
  have h := create_duplicate_conflict id [⟨"bob", "h", "ALL"⟩] "bob" "password1" "ALL"
    (by decide) (by decide) (by decide) (by decide) (by decide)
  exact ⟨h.1, h.2.2.2⟩

/-- Claim C5 (amended): every successful create stores the stripped
username `username.strip()`; but only the raw (pre-strip) username is
checked for emptiness, so a whitespace-only username passes validation
and stores an empty username. -/
theorem create_stores_stripped_username (hf : String → String) (store : List UserRow)
    (u p pc c : String)
    (hsucc : (create_user hf store u p pc c).1 = CreateOutcome.success) :
    (create_user hf store u p pc c).2
      = store ++ [⟨strip u, hf (truncate72 p), c⟩] := by
  rcases create_user_cases hf store u p pc c with ⟨_, hst⟩ | ⟨hne, _⟩
  · exact hst
  · exact absurd hsucc hne

/-- Witness for C5 (amended): a successful create of "  carol  " stores
the stripped username "carol". -/
theorem create_stores_stripped_username_witness :
    (create_user id [] "  carol  " "password1" "password1" "ALL").2
      = [⟨"carol", id (truncate72 "password1"), "ALL"⟩] := by
  have h := create_stores_stripped_username id [] "  carol  " "password1" "password1" "ALL"
    (by decide)
  rw [h]
  decide

/-- Counterexample for C5 as stated: a whitespace-only username passes
validation and the stored username is empty. -/
theorem create_whitespace_username_counterexample :
    (create_user id [] "   " "password1" "password1" "ALL").1 = CreateOutcome.success ∧
    (create_user id [] "   " "password1" "password1" "ALL").2.map (fun r => r.username)
      = [""] := by
  decide

/-- Embedding of `update_user_password` (lines 108-120 of `buat_user.py`):
`UPDATE pwh.users SET hashed_password = hash(new_password[:72]) WHERE username = :u`. -/
def update_user_password (hashFn : String → String) (store : List UserRow)
    (username new_password : String) : List UserRow :=
  store.map (fun r =>
    if r.username = username then
      { r with hashed_password := hashFn (truncate72 new_password) }
    else r)

/-- Outcome of clicking the per-row "Update Password" button
(lines 198-202): either the length check fails or the update runs and
`st.success` is shown. -/
inductive UpdateOutcome where
  | success
  | tooShort
deriving DecidableEq

/-- Embedding of the per-row "Update Password" button handler
(lines 198-202): reject passwords shorter than 8 characters, otherwise
run `update_user_password`. -/
def update_password_click (hashFn : String → String) (store : List UserRow)
    (username new_pw : String) : UpdateOutcome × List UserRow :=
  if new_pw.length < 8 then
    (UpdateOutcome.tooShort, store)
  else
    (UpdateOutcome.success, update_user_password hashFn store username new_pw)

/-- Every row of the updated store whose username matches carries the
hash of the truncated new password. -/
theorem update_row_hashed (hf : String → String) (store : List UserRow)
    (un np : String) :
    ∀ r ∈ update_user_password hf store un np, r.username = un →
      r.hashed_password = hf (truncate72 np) := by
  intro r hr hru
  unfold update_user_password at hr
  rcases List.mem_map.mp hr with ⟨r0, _, hfr⟩
  by_cases h : r0.username = un
  · rw [← hfr]
    simp [h]
  · rw [← hfr] at hru ⊢
    rw [if_neg h] at hru
    exact absurd hru h

/-- Claim C7: UpdatePassword requires `len(newPassword) >= 8`; when the
precondition holds it reports success and overwrites `hashed_password`
with the hash of the truncated password for every matching row; when the
username matches no row, the store is unchanged and the reported outcome
is identical to that of a real update. -/
theorem update_password_semantics (hf : String → String) (store : List UserRow)
    (u np : String) (hlen : ¬ np.length < 8) :
    (update_password_click hf store u np).1 = UpdateOutcome.success ∧
    (∀ r ∈ (update_password_click hf store u np).2, r.username = u →
      r.hashed_password = hf (truncate72 np)) ∧
    ((∀ r ∈ store, r.username ≠ u) →
      (update_password_click hf store u np).2 = store) ∧
    (∀ store2, (update_password_click hf store u np).1
      = (update_password_click hf store2 u np).1) := by
  simp only [update_password_click, if_neg hlen]
  refine ⟨trivial, update_row_hashed hf store u np, ?_, fun _ => trivial⟩
  intro hnone
  unfold update_user_password
  have hcong : ∀ r ∈ store,
      (if r.username = u then
        { r with hashed_password := hf (truncate72 np) } else r) = r := by
    intro r hr
    exact if_neg (hnone r hr)
  calc store.map (fun r =>
          if r.username = u then
            { r with hashed_password := hf (truncate72 np) } else r)
      = store.map id := List.map_congr_left hcong
    _ = store := List.map_id store

/-- Witness for C7: a valid update reports success; an update aimed at a
missing username leaves the store unchanged. -/
theorem update_password_semantics_witness :
    (update_password_click id [⟨"bob", "old", "ALL"⟩] "bob" "newpassword1").1
      = UpdateOutcome.success ∧
    (update_password_click id [⟨"bob", "old", "ALL"⟩] "missing" "newpassword1").2
      = [⟨"bob", "old", "ALL"⟩] := by
  have h1 := update_password_semantics id [⟨"bob", "old", "ALL"⟩] "bob"
    "newpassword1" (by decide)
  have h2 := update_password_semantics id [⟨"bob", "old", "ALL"⟩] "missing"
    "newpassword1" (by decide)
  refine ⟨h1.1, h2.2.2.1 ?_⟩
  intro r hr
  have he : r = ⟨"bob", "old", "ALL"⟩ := by simpa using hr
  rw [he]
  decide

/-- Claim C6 (amended): before hashing, both Create and UpdatePassword
truncate the supplied password to its first 72 characters (code points,
not bytes); the stored `hashed_password` is the hash of that truncation
and — whenever the hash differs from the plaintext — never the plaintext
itself. -/
theorem password_truncated_before_hash (hf : String → String) (store : List UserRow)
    (u p pc c un np : String)
    (hsucc : (create_user hf store u p pc c).1 = CreateOutcome.success)
    (hhash : hf (truncate72 p) ≠ p) :
    (create_user hf store u p pc c).2.getLast?
      = some ⟨strip u, hf (truncate72 p), c⟩ ∧
    (∀ r, (create_user hf store u p pc c).2.getLast? = some r →
      r.hashed_password ≠ p) ∧
    (truncate72 p).length ≤ 72 ∧
    (∀ r ∈ update_user_password hf store un np, r.username = un →
      r.hashed_password = hf (truncate72 np)) := by
  rcases create_user_cases hf store u p pc c with ⟨_, hst⟩ | ⟨hne, _⟩
  · refine ⟨?_, ?_, ?_, update_row_hashed hf store un np⟩
    · rw [hst]
      exact List.getLast?_concat _
    · intro r hr
      rw [hst, List.getLast?_concat] at hr
      have he := Option.some.inj hr
      rw [← he]
      exact hhash
    · show (p.data.take 72).length ≤ 72
      rw [List.length_take]
      omega
  · exact absurd hsucc hne

/-- Witness for C6: with the hash modelled as prepending "H", a
successful create stores the hash of the truncation, which differs from
the plaintext. -/
theorem password_truncated_before_hash_witness :
    (create_user (fun s => "H" ++ s) [] "dave" "password1" "password1" "ALL").2.getLast?
      = some ⟨strip "dave", "H" ++ truncate72 "password1", "ALL"⟩ ∧
    (∀ r, (create_user (fun s => "H" ++ s) [] "dave" "password1" "password1" "ALL").2.getLast?
      = some r → r.hashed_password ≠ "password1") ∧
    (truncate72 "password1").length ≤ 72 := by
  have h := password_truncated_before_hash (fun s => "H" ++ s) [] "dave"
    "password1" "password1" "ALL" "eve" "newpassword1" (by decide) (by decide)
  exact ⟨h.1, h.2.1, h.2.2.1⟩

/-- Counterexample for C6 as stated: the code truncates to 72 characters,
not 72 bytes — a password of 73 two-byte characters is "truncated" to an
input of 144 UTF-8 bytes, exceeding the 72-byte bcrypt limit. -/
theorem truncation_chars_not_bytes_counterexample :
    (truncate72 (String.mk (List.replicate 73 'é'))).utf8ByteSize = 144 ∧
    ¬ (truncate72 (String.mk (List.replicate 73 'é'))).utf8ByteSize ≤ 72 := by
  decide

/-- Claim C10: both Create and UpdatePassword hash only the first 72
characters of the supplied password: any two passwords agreeing on their
first 72 characters (and both passing the length check, for Create)
produce identical operation results, so the stored hash cannot
distinguish them. -/
theorem hash_input_limited_to_72_chars (hf : String → String) (store : List UserRow)
    (un c u2 p q : String)
    (htake : p.data.take 72 = q.data.take 72)
    (hp : ¬ p.length < 8) (hq : ¬ q.length < 8) :
    create_user hf store un p p c = create_user hf store un q q c ∧
    update_user_password hf store u2 p = update_user_password hf store u2 q := by
  have ht : truncate72 p = truncate72 q := by
    simp only [truncate72, htake]
  have hp0 : p ≠ "" := by
    intro h
    apply hp
    rw [h]
    decide
  have hq0 : q ≠ "" := by
    intro h
    apply hq
    rw [h]
    decide
  constructor
  · by_cases hu : un = ""
    · have h1 : un = "" ∨ p = "" ∨ c = "" := Or.inl hu
      have h2 : un = "" ∨ q = "" ∨ c = "" := Or.inl hu
      simp only [create_user, if_pos h1, if_pos h2]
    · by_cases hc : c = ""
      · have h1 : un = "" ∨ p = "" ∨ c = "" := Or.inr (Or.inr hc)
        have h2 : un = "" ∨ q = "" ∨ c = "" := Or.inr (Or.inr hc)
        simp only [create_user, if_pos h1, if_pos h2]
      · have h1 : ¬ (un = "" ∨ p = "" ∨ c = "") := by
          rintro (h | h | h) <;> [exact hu h; exact hp0 h; exact hc h]
        have h2 : ¬ (un = "" ∨ q = "" ∨ c = "") := by
          rintro (h | h | h) <;> [exact hu h; exact hq0 h; exact hc h]
        have hnp : ¬ (p ≠ p) := fun h => h rfl
        have hnq : ¬ (q ≠ q) := fun h => h rfl
        simp only [create_user, if_neg h1, if_neg h2, if_neg hnp, if_neg hnq,
          if_neg hp, if_neg hq, ht]
  · unfold update_user_password
    rw [ht]

/-- Witness for C10: an 80-character password and one differing only in
its last 8 characters produce the same create result. -/
theorem hash_input_limited_to_72_chars_witness :
    create_user id [] "frank"
        (String.mk (List.replicate 80 'a'))
        (String.mk (List.replicate 80 'a')) "ALL"
      = create_user id [] "frank"
        (String.mk (List.replicate 72 'a' ++ List.replicate 8 'b'))
        (String.mk (List.replicate 72 'a' ++ List.replicate 8 'b')) "ALL" :=
  (hash_input_limited_to_72_chars id [] "frank" "ALL" "bob"
    (String.mk (List.replicate 80 'a'))
    (String.mk (List.replicate 72 'a' ++ List.replicate 8 'b'))
    (by decide) (by decide) (by decide)).1

/-- Embedding of the SQL query on line 58 of `buat_user.py`:
`SELECT DISTINCT cabang FROM pwh.hmhi_cabang WHERE cabang IS NOT NULL ORDER BY cabang` —
drop NULLs, de-duplicate, sort ascending. -/
def distinct_cabang_query (rows : List (Option String)) : List String :=
  List.insertionSort (fun a b => a ≤ b) (rows.filterMap id).dedup

/-- Embedding of `fetch_cabang_list` (lines 55-64): on a reachable
directory, return `["", "ALL"]` prepended to the query result; if the
query raises (`none` here), surface a non-fatal error and return
`["", "ALL"]`. The boolean records whether the error message was shown. -/
def fetch_cabang_list (directory : Option (List (Option String))) :
    List String × Bool :=
  match directory with
  | none => (["", "ALL"], true)
  | some rows => (["", "ALL"] ++ distinct_cabang_query rows, false)

/-- Claim C8 (amended): FetchBranches returns `["", "ALL"]` followed by
the sorted, de-duplicated, non-null directory names — the directory part
itself is duplicate-free and ordered, but the whole list duplicates the
sentinel when the directory itself contains "ALL" (or ""); on an empty
directory it returns exactly `["", "ALL"]`, and on an unreachable one it
returns `["", "ALL"]` with a non-fatal warning. -/
theorem fetch_cabang_list_spec (rows : List (Option String)) :
    (fetch_cabang_list (some rows)).1 = ["", "ALL"] ++ distinct_cabang_query rows ∧
    (distinct_cabang_query rows).Nodup ∧
    List.Sorted (fun a b => a ≤ b) (distinct_cabang_query rows) ∧
    (fetch_cabang_list (some ([] : List (Option String)))).1 = ["", "ALL"] ∧
    fetch_cabang_list none = (["", "ALL"], true) := by
  refine ⟨rfl, ?_, ?_, rfl, rfl⟩
  · exact (List.perm_insertionSort _ _).nodup_iff.mpr
      (List.nodup_dedup (rows.filterMap id))
  · exact List.sorted_insertionSort _ _

/-- Counterexample for C8 as stated: when the directory itself contains
"ALL", the returned list contains the entry "ALL" twice. -/
theorem fetch_cabang_duplicate_counterexample :
    (fetch_cabang_list (some [some "ALL"])).1 = ["", "ALL", "ALL"] ∧
    ¬ (fetch_cabang_list (some [some "ALL"])).1.Nodup := by
  decide

/-- The two session flags of the gate (`st.session_state.master_auth_ok`
and `st.session_state.show_form`, defaulting to false). -/
structure SessionFlags where
  master_auth_ok : Bool
  show_form : Bool
deriving DecidableEq

/-- A fresh session: both flags absent, i.e. read as false. -/
def initial_session : SessionFlags :=
  ⟨false, false⟩

/-- The three states of the gate as named by the specification. -/
inductive GateState where
  | Locked
  | Verified
  | Active
deriving DecidableEq

/-- The two user interactions the gate reacts to: submitting the
master-key form (line 82) and the "Masuk ke Halaman Admin" button
(line 220). -/
inductive GateEvent where
  | submitSecret (input : String)
  | confirmEnter
deriving DecidableEq

/-- Which screen the main dispatch (lines 216-224) renders: not
authenticated → the locked master-key prompt; authenticated but the form
flag unset → the verified confirmation screen; otherwise the admin
tabs. -/
def gate_state (s : SessionFlags) : GateState :=
  if s.master_auth_ok = false then GateState.Locked
  else if s.show_form = false then GateState.Verified
  else GateState.Active

/-- One step of the gate. Submitting the secret is only possible on the
locked screen (the prompt is only rendered there); a correct input sets
`master_auth_ok` (lines 83-85), a wrong one leaves the state unchanged
(line 87). The confirmation button is only rendered on the verified
screen and sets `show_form` (lines 220-222). -/
def gate_step (masterKey : String) (s : SessionFlags) : GateEvent → SessionFlags
  | GateEvent.submitSecret input =>
    if s.master_auth_ok = false then
      (if input = masterKey then { s with master_auth_ok := true } else s)
    else s
  | GateEvent.confirmEnter =>
    if s.master_auth_ok = true ∧ s.show_form = false then
      { s with show_form := true }
    else s

/-- Run a session: fold the gate step over a list of interactions. -/
def gate_run (masterKey : String) (s : SessionFlags) (evs : List GateEvent) :
    SessionFlags :=
  evs.foldl (gate_step masterKey) s

theorem gate_state_locked_iff (s : SessionFlags) :
    gate_state s = GateState.Locked ↔ s.master_auth_ok = false := by
  cases s with
  | mk a f => cases a <;> cases f <;> simp [gate_state]

theorem gate_state_verified_iff (s : SessionFlags) :
    gate_state s = GateState.Verified ↔
      s.master_auth_ok = true ∧ s.show_form = false := by
  cases s with
  | mk a f => cases a <;> cases f <;> simp [gate_state]

theorem gate_state_active_iff (s : SessionFlags) :
    gate_state s = GateState.Active ↔
      s.master_auth_ok = true ∧ s.show_form = true := by
  cases s with
  | mk a f => cases a <;> cases f <;> simp [gate_state]

/-- A gate step never clears `master_auth_ok`. -/
theorem gate_step_preserves_auth (masterKey : String) (s : SessionFlags)
    (e : GateEvent) (h : s.master_auth_ok = true) :
    (gate_step masterKey s e).master_auth_ok = true := by
  cases e with
  | submitSecret input =>
    simp only [gate_step]
    have hne : ¬ (s.master_auth_ok = false) := by
      rw [h]
      exact fun hc => Bool.noConfusion hc
    rw [if_neg hne]
    exact h
  | confirmEnter =>
    simp only [gate_step]
    split
    · exact h
    · exact h

/-- A gate step preserves the invariant that `show_form` is only ever set
while `master_auth_ok` holds. -/
theorem gate_step_show_form_inv (masterKey : String) (s : SessionFlags)
    (e : GateEvent) (h : s.show_form = true → s.master_auth_ok = true) :
    (gate_step masterKey s e).show_form = true →
      (gate_step masterKey s e).master_auth_ok = true := by
  cases e with
  | submitSecret input =>
    simp only [gate_step]
    split
    · split
      · intro _
        rfl
      · exact h
    · exact h
  | confirmEnter =>
    simp only [gate_step]
    split
    · rename_i hc
      intro _
      exact hc.1

    · exact h

/-- The `show_form → master_auth_ok` invariant holds along every run. -/
theorem gate_run_show_form_inv (masterKey : String) (evs : List GateEvent) :
    ∀ s : SessionFlags, (s.show_form = true → s.master_auth_ok = true) →
      ((gate_run masterKey s evs).show_form = true →
        (gate_run masterKey s evs).master_auth_ok = true) := by
  induction evs with
  | nil =>
    intro s h
    exact h
  | cons e tl ih =>
    intro s h
    exact ih (gate_step masterKey s e) (gate_step_show_form_inv masterKey s e h)

/-- `master_auth_ok` can only become true through submitting the correct
secret. -/
theorem gate_auth_requires_secret (masterKey : String) (evs : List GateEvent) :
    ∀ s : SessionFlags, s.master_auth_ok = false →
      (gate_run masterKey s evs).master_auth_ok = true →
      GateEvent.submitSecret masterKey ∈ evs := by
  induction evs with
  | nil =>
    intro s h0 h1
    rw [show gate_run masterKey s [] = s from rfl, h0] at h1
    exact Bool.noConfusion h1
  | cons e tl ih =>
    intro s h0 h1
    rw [show gate_run masterKey s (e :: tl)
      = gate_run masterKey (gate_step masterKey s e) tl from rfl] at h1
    cases hb : (gate_step masterKey s e).master_auth_ok with
    | false => exact List.mem_cons_of_mem _ (ih _ hb h1)
    | true =>
      cases e with
      | submitSecret input =>
        by_cases hin : input = masterKey
        · rw [hin]
          exact List.mem_cons_self _ _
        · exfalso
          have hstep : gate_step masterKey s (GateEvent.submitSecret input) = s := by
            simp only [gate_step]
            rw [if_pos h0, if_neg hin]
          rw [hstep, h0] at hb
          exact Bool.noConfusion hb
      | confirmEnter =>
        exfalso
        have hpres : (gate_step masterKey s GateEvent.confirmEnter).master_auth_ok
            = s.master_auth_ok := by
          simp only [gate_step]
          split
          · rfl
          · rfl
        rw [hpres, h0] at hb
        exact Bool.noConfusion hb

/-- Appending one event to a run is one gate step on the final state. -/
theorem gate_run_concat (masterKey : String) (s : SessionFlags)
    (evs : List GateEvent) (e : GateEvent) :
    gate_run masterKey s (evs ++ [e])
      = gate_step masterKey (gate_run masterKey s evs) e := by
  unfold gate_run
  rw [List.foldl_append]
  rfl

/-- Claim C1: in every session (trace `pre` of interactions from a fresh
session), a wrong secret leaves the gate Locked; the correct secret moves
Locked to Verified; the confirmation moves Verified to Active; no event
ever moves the gate back to Locked; and a session whose gate is Active
contains a prior correct-secret submission. -/
theorem session_gate_state_machine (masterKey input : String)
    (pre evs : List GateEvent) :
    (gate_state (gate_run masterKey initial_session pre) = GateState.Locked →
      input ≠ masterKey →
      gate_state (gate_run masterKey initial_session
        (pre ++ [GateEvent.submitSecret input])) = GateState.Locked) ∧
    (gate_state (gate_run masterKey initial_session pre) = GateState.Locked →
      gate_state (gate_run masterKey initial_session
        (pre ++ [GateEvent.submitSecret masterKey])) = GateState.Verified) ∧
    (gate_state (gate_run masterKey initial_session pre) = GateState.Verified →
      gate_state (gate_run masterKey initial_session
        (pre ++ [GateEvent.confirmEnter])) = GateState.Active) ∧
    (∀ e, gate_state (gate_run masterKey initial_session pre) ≠ GateState.Locked →
      gate_state (gate_run masterKey initial_session (pre ++ [e]))
        ≠ GateState.Locked) ∧
    (gate_state (gate_run masterKey initial_session evs) = GateState.Active →
      GateEvent.submitSecret masterKey ∈ evs) := by
  have hinv := gate_run_show_form_inv masterKey pre initial_session
    (fun h => Bool.noConfusion h)
  refine ⟨?_, ?_, ?_, ?_, ?_⟩
  · intro hl hin
    rw [gate_run_concat]
    have ha := (gate_state_locked_iff _).mp hl
    have hstep : gate_step masterKey (gate_run masterKey initial_session pre)
        (GateEvent.submitSecret input) = gate_run masterKey initial_session pre := by
      simp only [gate_step]
      rw [if_pos ha, if_neg hin]
    rw [hstep]
    exact hl
  · intro hl
    rw [gate_run_concat]
    have ha := (gate_state_locked_iff _).mp hl
    have hsf : (gate_run masterKey initial_session pre).show_form = false := by
      cases hb : (gate_run masterKey initial_session pre).show_form with
      | false => rfl
      | true =>
        exfalso
        have hcontra := hinv hb
        rw [ha] at hcontra
        exact Bool.noConfusion hcontra
    have hstep : gate_step masterKey (gate_run masterKey initial_session pre)
        (GateEvent.submitSecret masterKey)
        = { master_auth_ok := true,
            show_form := (gate_run masterKey initial_session pre).show_form } := by
      simp only [gate_step]
      rw [if_pos ha]
      simp
    rw [hstep]
    exact (gate_state_verified_iff _).mpr ⟨rfl, hsf⟩
  · intro hv
    rw [gate_run_concat]
    have hav := (gate_state_verified_iff _).mp hv
    have hstep : gate_step masterKey (gate_run masterKey initial_session pre)
        GateEvent.confirmEnter
        = { master_auth_ok := (gate_run masterKey initial_session pre).master_auth_ok,
            show_form := true } := by
      simp only [gate_step]
      rw [if_pos hav]
    rw [hstep]
    exact (gate_state_active_iff _).mpr ⟨hav.1, rfl⟩
  · intro e hnl
    rw [gate_run_concat]
    intro hl
    apply hnl
    have ha := (gate_state_locked_iff _).mp hl
    have hat : (gate_run masterKey initial_session pre).master_auth_ok = true := by
      cases hb : (gate_run masterKey initial_session pre).master_auth_ok with
      | false => exact absurd ((gate_state_locked_iff _).mpr hb) hnl
      | true => rfl
    have hpres := gate_step_preserves_auth masterKey _ e hat
    rw [hpres] at ha
    exact Bool.noConfusion ha
  · intro hact
    have hat := ((gate_state_active_iff _).mp hact).1
    exact gate_auth_requires_secret masterKey evs initial_session rfl hat

/-- Witness for C1: a wrong secret leaves a fresh session Locked, and the
trace that reaches Active contains the correct-secret submission. -/
theorem session_gate_state_machine_witness :
    gate_state (gate_run "sekret" initial_session
      ([] ++ [GateEvent.submitSecret "wrong"])) = GateState.Locked ∧
    GateEvent.submitSecret "sekret"
      ∈ [GateEvent.submitSecret "sekret", GateEvent.confirmEnter] := by
  have h := session_gate_state_machine "sekret" "wrong" []
    [GateEvent.submitSecret "sekret", GateEvent.confirmEnter]
  exact ⟨h.1 (by decide) (by decide), h.2.2.2.2 (by decide)⟩

/-- Per-interaction state of the user-listing tab: the store plus the
ephemeral `confirm_delete_{i}` session flags, keyed by the row's
position in the listing. -/
structure AdminState where
  store : List UserRow
  confirm_delete : Nat → Bool

/-- The listing shown in tab 2 (lines 93-106): usernames ordered
ascending (`ORDER BY username`). -/
def user_listing (store : List UserRow) : List String :=
  List.insertionSort (fun a b => a ≤ b) (store.map (fun r => r.username))

/-- Embedding of `delete_user` (lines 122-130):
`DELETE FROM pwh.users WHERE username = :u`. -/
def delete_user (store : List UserRow) (username : String) : List UserRow :=
  store.filter (fun r => r.username != username)

/-- Embedding of one click on the per-row delete button (lines 204-211):
if the row's `confirm_delete` flag is set, delete the row's user and
clear the flag; otherwise set the flag and show the warning (the
returned boolean). -/
def click_delete (s : AdminState) (i : Nat) : AdminState × Bool :=
  match (user_listing s.store)[i]? with
  | none => (s, false)
  | some u =>
    if s.confirm_delete i = true then
      ({ store := delete_user s.store u,
         confirm_delete := fun j => if j = i then false else s.confirm_delete j },
       false)
    else
      ({ store := s.store,
         confirm_delete := fun j => if j = i then true else s.confirm_delete j },
       true)

/-- Run a sequence of delete-button clicks. -/
def run_delete_clicks (s : AdminState) (evs : List Nat) : AdminState :=
  evs.foldl (fun st i => (click_delete st i).1) s

/-- The listing tab as first rendered: no `confirm_delete` flag set. -/
def initial_admin (store : List UserRow) : AdminState :=
  { store := store, confirm_delete := fun _ => false }

/-- A click on row key `i` leaves every other row's flag unchanged. -/
theorem click_delete_other_flags (s : AdminState) (e i : Nat) (hne : e ≠ i) :
    (click_delete s e).1.confirm_delete i = s.confirm_delete i := by
  unfold click_delete
  split
  · rfl
  · split
    · show (if i = e then false else s.confirm_delete i) = s.confirm_delete i
      rw [if_neg (fun hc => hne hc.symm)]
    · show (if i = e then true else s.confirm_delete i) = s.confirm_delete i
      rw [if_neg (fun hc => hne hc.symm)]

/-- A `confirm_delete` flag can only be armed by a click on that very
row key. -/
theorem armed_flag_from_click (i : Nat) (evs : List Nat) :
    ∀ s : AdminState, s.confirm_delete i = false →
      (run_delete_clicks s evs).confirm_delete i = true → i ∈ evs := by
  induction evs with
  | nil =>
    intro s h0 h1
    rw [show run_delete_clicks s [] = s from rfl, h0] at h1
    exact Bool.noConfusion h1
  | cons e tl ih =>
    intro s h0 h1
    rw [show run_delete_clicks s (e :: tl)
      = run_delete_clicks (click_delete s e).1 tl from rfl] at h1
    by_cases he : e = i
    · subst he
      exact List.mem_cons_self _ _
    · have hpres := click_delete_other_flags s e i he
      exact List.mem_cons_of_mem _ (ih _ (hpres.trans h0) h1)

/-- Claim C4: deleting a row takes two activations of its button: with
the row's flag unset, a click only arms the flag and warns, leaving the
store unchanged; with the flag already set for that same row key, a click
deletes the row's user and disarms the flag; and starting from the
unarmed initial state, a flag can only have been set by a prior click on
that same row key, so no deletion happens without its own prior arming
activation. -/
theorem delete_requires_two_clicks (s : AdminState) (i : Nat) (u : String)
    (store0 : List UserRow) (evs : List Nat) :
    (s.confirm_delete i = false → (click_delete s i).1.store = s.store) ∧
    ((user_listing s.store)[i]? = some u → s.confirm_delete i = false →
      (click_delete s i).1.confirm_delete i = true ∧ (click_delete s i).2 = true) ∧
    ((user_listing s.store)[i]? = some u → s.confirm_delete i = true →
      (click_delete s i).1.store = delete_user s.store u ∧
      (click_delete s i).1.confirm_delete i = false) ∧
    ((run_delete_clicks (initial_admin store0) evs).confirm_delete i = true →
      i ∈ evs) := by
  refine ⟨?_, ?_, ?_, ?_⟩
  · intro hf
    unfold click_delete
    split
    · rfl
    · split
      · rename_i hc
        rw [hf] at hc
        exact Bool.noConfusion hc
      · rfl
  · intro hu hf
    unfold click_delete
    split
    · rename_i heq
      rw [hu] at heq
      exact Option.noConfusion heq
    · split
      · rename_i hc
        rw [hf] at hc
        exact Bool.noConfusion hc
      · constructor
        · show (if i = i then true else s.confirm_delete i) = true
          rw [if_pos rfl]
        · rfl
  · intro hu hf
    unfold click_delete
    split
    · rename_i heq
      rw [hu] at heq
      exact Option.noConfusion heq
    · rename_i v heq
      rw [hu] at heq
      have hv := Option.some.inj heq
      split
      · subst hv
        constructor
        · rfl
        · show (if i = i then false else s.confirm_delete i) = false
          rw [if_pos rfl]
      · rename_i hc
        rw [hf] at hc
        exact absurd rfl hc
  · exact armed_flag_from_click i evs (initial_admin store0) rfl

/-- Witness for C4: one click on the only row leaves it present; with the
flag already armed, the next click removes it; an armed flag implies a
prior click on that key. -/
theorem delete_requires_two_clicks_witness :
    (click_delete (initial_admin [⟨"bob", "h", "ALL"⟩]) 0).1.store
      = [⟨"bob", "h", "ALL"⟩] ∧
    (click_delete (run_delete_clicks (initial_admin [⟨"bob", "h", "ALL"⟩]) [0])
      0).1.store = [] ∧
    (0 : Nat) ∈ ([0] : List Nat) := by
  have h1 := delete_requires_two_clicks (initial_admin [⟨"bob", "h", "ALL"⟩])
    0 "bob" [⟨"bob", "h", "ALL"⟩] [0]
  have h2 := (delete_requires_two_clicks
    (run_delete_clicks (initial_admin [⟨"bob", "h", "ALL"⟩]) [0])
    0 "bob" [] []).2.2.1 (by decide) (by decide)
  refine ⟨h1.1 (by decide), ?_, h1.2.2.2 (by decide)⟩
  rw [h2.1]
  decide

/-- Result of the startup sequence (lines 17-48): either `st.stop` with a
diagnostic already shown, or a ready engine on the resolved DSN. -/
inductive StartupResult where
  | halted (diag : String)
  | ready (dsn : String)
deriving DecidableEq

/-- Embedding of `_resolve_db_url` (lines 17-29): Streamlit secrets take
precedence, then the environment; both absent (modelled as "") yields
`None` after showing the error. -/
def resolve_db_url (secretsDbUrl envDbUrl : String) : Option String :=
  if secretsDbUrl ≠ "" then some secretsDbUrl
  else if envDbUrl ≠ "" then some envDbUrl
  else none

/-- Embedding of the startup sequence (lines 31-48): a missing
DATABASE_URL halts with the diagnostic; otherwise `get_engine` connects,
halting with a connection diagnostic on failure. -/
def db_startup (secretsDbUrl envDbUrl : String) (connectOk : Bool) :
    StartupResult :=
  match resolve_db_url secretsDbUrl envDbUrl with
  | none => StartupResult.halted "DATABASE_URL tidak ditemukan di Streamlit Secrets."
  | some dsn =>
    if connectOk then StartupResult.ready dsn
    else StartupResult.halted "Gagal terhubung ke database"

/-- What the gate renders on a locked session. -/
inductive GateRender where
  | halted (diag : String)
  | prompt
deriving DecidableEq

/-- Embedding of the configuration check at the top of `check_master_key`
(lines 69-81): unreadable secrets or an empty MASTER_KEY halt with a
diagnostic before the secret-input prompt is rendered. -/
def check_master_key_render (secretsReadable : Bool) (masterKey : String) :
    GateRender :=
  if secretsReadable = false then
    GateRender.halted "Gagal membaca Streamlit Secrets."
  else if masterKey = "" then
    GateRender.halted "Aplikasi tidak dikonfigurasi dengan benar. Tambahkan MASTER_KEY di secrets."
  else GateRender.prompt

/-- Claim C9: a missing DATABASE_URL (absent from both secrets and the
environment) halts startup with a user-visible diagnostic regardless of
connectivity, and a missing MASTER_KEY halts the gate with a diagnostic
before the Locked secret-input prompt is rendered. -/
theorem missing_config_fatal (sec env mk : String) :
    (sec = "" → env = "" → ∀ connectOk,
      db_startup sec env connectOk
        = StartupResult.halted "DATABASE_URL tidak ditemukan di Streamlit Secrets.") ∧
    (mk = "" →
      check_master_key_render true mk
        = GateRender.halted "Aplikasi tidak dikonfigurasi dengan benar. Tambahkan MASTER_KEY di secrets." ∧
      check_master_key_render true mk ≠ GateRender.prompt) := by
  constructor
  · intro hs he connectOk
    have hres : resolve_db_url sec env = none := by
      unfold resolve_db_url
      rw [if_neg (fun hc => hc hs), if_neg (fun hc => hc he)]
    unfold db_startup
    rw [hres]
  · intro hm
    have h1 : check_master_key_render true mk
        = GateRender.halted "Aplikasi tidak dikonfigurasi dengan benar. Tambahkan MASTER_KEY di secrets." := by
      unfold check_master_key_render
      rw [if_neg (fun hc => Bool.noConfusion hc), if_pos hm]
    refine ⟨h1, ?_⟩
    rw [h1]
    intro hc
    exact GateRender.noConfusion hc

/-- Witness for C9: with both configuration sources empty, startup halts;
with an empty MASTER_KEY, the gate never reaches the prompt. -/
theorem missing_config_fatal_witness :
    db_startup "" "" true
      = StartupResult.halted "DATABASE_URL tidak ditemukan di Streamlit Secrets." ∧
    check_master_key_render true "" ≠ GateRender.prompt := by
  have h := missing_config_fatal "" "" ""
  exact ⟨h.1 rfl rfl true, (h.2 rfl).2⟩

end UserManagement
